import Mathlib

/-!
Verification of the status-polling and derived-state pipeline of the
Bohemia service-status dashboard (src/src/App.tsx).

The stateful React component is embedded as explicit state passing: the
`useState` cells become fields of `AppState`, each fetch callback becomes a
function from the old state (plus the outcome of its network request and
the current clock reading) to the new state.  The wall clock, implicit in
the JavaScript via `new Date()` / `Date.now()`, is an explicit argument
(milliseconds since epoch, as `Nat`).  `Date.toLocaleString`, whose output
depends on the host locale, is an explicit function argument.
-/

/-- `Service` record delivered by the primary status feed
(interface `Service`, App.tsx lines 5-14).  Uptime percentages and latency
are JavaScript numbers, embedded as rationals. -/
structure Service where
  name : String
  online : Bool
  online_24_hours : ℚ
  online_7_days : ℚ
  last_success : String
  last_error : String
  latency : ℚ
  failures_24_hours : ℕ
deriving DecidableEq

/-- Entry of the monitored-service allow-list
(interface `ServiceInfo`, App.tsx lines 16-19). -/
structure ServiceInfo where
  name : String
  url : Option String
deriving DecidableEq

/-- Result of the secondary workshop-website probe
(interface `WorkshopStatus`, App.tsx lines 21-24). -/
structure WorkshopStatus where
  online : Bool
  latency : ℕ
deriving DecidableEq

/-- The hard-coded allow-list `targetServices` (App.tsx lines 80-84). -/
def targetServices : List ServiceInfo :=
  [⟨"Main Page", some "https://www.bohemia.net"⟩,
   ⟨"Arma Reforger Game API", none⟩,
   ⟨"Arma Reforger Workshop API", some "https://reforger.armaplatform.com/workshop"⟩]

/-- The service filter (App.tsx lines 97-99):
`data.filter(service => targetServices.map(s => s.name).includes(service.name))`,
generalized over the allow-list it closes over. -/
def filterServices (data : List Service) (specList : List ServiceInfo) : List Service :=
  data.filter (fun service => (specList.map (fun s => s.name)).contains service.name)

/-- The component's `useState` cells (App.tsx lines 74-78). -/
structure AppState where
  services : List Service
  loading : Bool
  error : Option String
  lastUpdate : ℕ
  workshopStatus : WorkshopStatus
deriving DecidableEq

/-- Initial component state (App.tsx lines 74-78): empty service list,
`loading = true`, no error, `lastUpdate = new Date()` at mount time,
workshop status `{online: false, latency: 0}`. -/
def initialAppState (startMs : ℕ) : AppState :=
  { services := []
    loading := true
    error := none
    lastUpdate := startMs
    workshopStatus := ⟨false, 0⟩ }

/-- How one run of the `fetchData` try-block can settle (App.tsx lines 88-95):
the relay answers with a non-success HTTP status (the explicit `throw` on
line 91), the relay envelope's `contents` field is missing, `contents` is
not valid JSON (both make `JSON.parse` throw), or everything parses into a
service array. -/
inductive FetchOutcome where
  | httpNotOk (status : ℕ)
  | contentsMissing
  | contentsNotJson
  | parsed (data : List Service)
deriving DecidableEq

/-- Whether the outcome lands in the `catch` block of `fetchData`. -/
def FetchOutcome.isFailure : FetchOutcome → Bool
  | .parsed _ => false
  | _ => true

/-- The fixed user-facing message set on line 105 of App.tsx. -/
def fetchErrorMessage : String :=
  "Unable to fetch service status. Please try again later."

/-- State transition of `fetchData` (App.tsx lines 86-109).  On the success
path the filtered services, `lastUpdate = new Date()` and `error = null`
are stored (lines 100-102); any failure reaches the `catch` block, which
stores only the fixed error message (line 105); the `finally` block clears
`loading` on every path (line 107). -/
def fetchData (st : AppState) (outcome : FetchOutcome) (now : ℕ) : AppState :=
  match outcome with
  | .parsed data =>
      { st with
        services := filterServices data targetServices
        lastUpdate := now
        error := none
        loading := false }
  | .httpNotOk _ => { st with error := some fetchErrorMessage, loading := false }
  | .contentsMissing => { st with error := some fetchErrorMessage, loading := false }
  | .contentsNotJson => { st with error := some fetchErrorMessage, loading := false }

/-- How one run of `checkWorkshopWebsite` can settle (App.tsx lines 111-123):
either `fetch` resolves to a response (with `Date.now()` sampled before the
request and after it resolves), or it throws. -/
inductive ProbeOutcome where
  | response (ok : Bool) (startTime endTime : ℕ)
  | failure (startTime : ℕ)
deriving DecidableEq

/-- State transition of `checkWorkshopWebsite` (App.tsx lines 111-123):
on a response, `{online: response.ok, latency: endTime - startTime}`;
on an exception, `{online: false, latency: 0}`. -/
def checkWorkshopWebsite (st : AppState) (outcome : ProbeOutcome) : AppState :=
  match outcome with
  | .response ok s e => { st with workshopStatus := ⟨ok, e - s⟩ }
  | .failure _ => { st with workshopStatus := ⟨false, 0⟩ }

/-- `formatTimeAgo` (App.tsx lines 27-41), with the host-locale absolute
formatter `date.toLocaleString()` passed in as `loc`.  `seconds` is
`Math.floor((now - date) / 1000)`, which for `now ≥ date` is `Nat` division. -/
def formatTimeAgo (loc : ℕ → String) (nowMs dateMs : ℕ) : String :=
  let seconds := (nowMs - dateMs) / 1000
  if seconds < 5 then "Just now"
  else if seconds < 60 then toString seconds ++ " seconds ago"
  else if seconds < 3600 then
    let minutes := seconds / 60
    toString minutes ++ " " ++ (if minutes = 1 then "minute" else "minutes") ++ " ago"
  else if seconds < 86400 then
    let hours := seconds / 3600
    toString hours ++ " " ++ (if hours = 1 then "hour" else "hours") ++ " ago"
  else loc dateMs

/-- `isRecent` (App.tsx line 54): `(new Date().getTime() - date.getTime()) < 5000`. -/
def isRecent (nowMs dateMs : ℕ) : Bool :=
  (nowMs - dateMs) < 5000

/-- `formatDate` (App.tsx lines 135-143), the compact per-field relative
formatter, with the locale fallback passed in as `loc`. -/
def formatDate (loc : ℕ → String) (nowMs dateMs : ℕ) : String :=
  let timeAgo := (nowMs - dateMs) / 1000
  if timeAgo < 60 then "Just now"
  else if timeAgo < 3600 then toString (timeAgo / 60) ++ "m ago"
  else if timeAgo < 86400 then toString (timeAgo / 3600) ++ "h ago"
  else loc dateMs

/-- Zero-padded two-digit decimal string for `k < 100`. -/
def padTwo (k : ℕ) : String :=
  if k < 10 then "0" ++ toString k else toString k

/-- `Number.prototype.toFixed(2)` for non-negative values, per ECMA-262:
the integer `n` with `n / 100` closest to `x`, larger `n` on ties (for
`x ≥ 0` this is `⌊100x + 1/2⌋`), printed with the decimal point inserted
two digits from the right.  The dashboard only applies it to uptime
percentages in `[0,100]` and to non-negative latencies. -/
def toFixed2 (x : ℚ) : String :=
  let n : ℕ := (Int.floor (100 * x + 1 / 2)).toNat
  toString (n / 100) ++ "." ++ padTwo (n % 100)

/-- The uptime-percentage formatter `value.toFixed(2) + '%'`
(App.tsx lines 271 and 276). -/
def percentString (x : ℚ) : String :=
  toFixed2 x ++ "%"

/-- `formatLatency` (App.tsx lines 145-147): `(latency / 1000).toFixed(2) + 's'`. -/
def formatLatency (latency : ℚ) : String :=
  toFixed2 (latency / 1000) ++ "s"

/-- C1: for every raw service sequence and every monitored-service spec,
`filterServices` returns exactly the subsequence of input entries whose
`name` is in the spec's name set: the output is a sublist of the input
(so the raw feed's relative order is preserved), and an entry is in the
output precisely when it is in the input and its name is in the spec. -/
theorem filterServices_exact_subsequence (data : List Service) (specList : List ServiceInfo) :
    List.Sublist (filterServices data specList) data ∧
    ∀ s : Service, s ∈ filterServices data specList ↔
      s ∈ data ∧ s.name ∈ specList.map (fun si => si.name) := by
  constructor
  · exact List.filter_sublist data
  · intro s
    simp [filterServices, List.mem_filter]

/-- C2: whenever the primary fetch fails (non-success HTTP status, missing
`contents`, or invalid inner JSON), `fetchData` sets the page-level error to
exactly the fixed message and leaves the stored service list unchanged. -/
theorem fetchData_failure_error_and_services (st : AppState) (out : FetchOutcome) (now : ℕ)
    (h : out.isFailure = true) :
    (fetchData st out now).error =
      some "Unable to fetch service status. Please try again later." ∧
    (fetchData st out now).services = st.services := by
  cases out <;> simp_all [fetchData, FetchOutcome.isFailure, fetchErrorMessage]

/-- Witness for C2 at a concrete failing outcome (HTTP 500). -/
theorem fetchData_failure_error_and_services_witness :
    (FetchOutcome.httpNotOk 500).isFailure = true ∧
    ((fetchData (initialAppState 0) (FetchOutcome.httpNotOk 500) 7000).error =
      some "Unable to fetch service status. Please try again later." ∧
     (fetchData (initialAppState 0) (FetchOutcome.httpNotOk 500) 7000).services =
      (initialAppState 0).services) :=
  ⟨rfl, fetchData_failure_error_and_services (initialAppState 0) (FetchOutcome.httpNotOk 500) 7000 rfl⟩

/-- C4: on every successful refresh cycle, `fetchData` ends with
`error = null` and `lastUpdate` set to the current time of that cycle. -/
theorem fetchData_success_clears_error_sets_lastUpdate
    (st : AppState) (data : List Service) (now : ℕ) :
    (fetchData st (FetchOutcome.parsed data) now).error = none ∧
    (fetchData st (FetchOutcome.parsed data) now).lastUpdate = now := by
  simp [fetchData]

/-- C9: on a failed primary fetch cycle, `lastUpdate` is left unchanged;
only a successful cycle advances it. -/
theorem fetchData_failure_keeps_lastUpdate (st : AppState) (out : FetchOutcome) (now : ℕ)
    (h : out.isFailure = true) :
    (fetchData st out now).lastUpdate = st.lastUpdate := by
  cases out <;> simp_all [fetchData, FetchOutcome.isFailure]

/-- Witness for C9 at a concrete failing outcome (invalid inner JSON). -/
theorem fetchData_failure_keeps_lastUpdate_witness :
    FetchOutcome.contentsNotJson.isFailure = true ∧
    (fetchData (initialAppState 42) FetchOutcome.contentsNotJson 9000).lastUpdate =
      (initialAppState 42).lastUpdate :=
  ⟨rfl, fetchData_failure_keeps_lastUpdate (initialAppState 42) FetchOutcome.contentsNotJson 9000 rfl⟩

/-- C10: after every primary fetch attempt settles — success or any
failure — the `loading` flag is false (the `finally` block always runs). -/
theorem fetchData_always_clears_loading (st : AppState) (out : FetchOutcome) (now : ℕ) :
    (fetchData st out now).loading = false := by
  cases out <;> rfl

/-- C3: the secondary probe never touches the page-level error; on any HTTP
response, `online` is the success flag and `latency` is the elapsed
wall-clock milliseconds around the request (success or not); on any
exception, the result is exactly `{online: false, latency: 0}`. -/
theorem checkWorkshopWebsite_probe_result (st : AppState) (out : ProbeOutcome) :
    (checkWorkshopWebsite st out).error = st.error ∧
    (∀ ok s e, out = ProbeOutcome.response ok s e →
      (checkWorkshopWebsite st out).workshopStatus = ⟨ok, e - s⟩) ∧
    (∀ s, out = ProbeOutcome.failure s →
      (checkWorkshopWebsite st out).workshopStatus = ⟨false, 0⟩) := by
  refine ⟨?_, ?_, ?_⟩
  · cases out <;> rfl
  · rintro ok s e rfl
    rfl
  · rintro s rfl
    rfl

/-- Witness for C3: a non-success response measured from 1000ms to 1250ms,
and a thrown request. -/
theorem checkWorkshopWebsite_probe_result_witness :
    (checkWorkshopWebsite (initialAppState 0)
      (ProbeOutcome.response false 1000 1250)).workshopStatus = ⟨false, 250⟩ ∧
    (checkWorkshopWebsite (initialAppState 0)
      (ProbeOutcome.failure 1000)).workshopStatus = ⟨false, 0⟩ :=
  ⟨(checkWorkshopWebsite_probe_result (initialAppState 0)
      (ProbeOutcome.response false 1000 1250)).2.1 false 1000 1250 rfl,
   (checkWorkshopWebsite_probe_result (initialAppState 0)
      (ProbeOutcome.failure 1000)).2.2 1000 rfl⟩

/-- C5: `formatTimeAgo` buckets the elapsed whole seconds
`s = (nowMs - dateMs) / 1000` as: `s < 5` gives "Just now"; `5 ≤ s < 60`
gives "N seconds ago"; `60 ≤ s < 3600` gives "N minute(s) ago" with
`N = s / 60` and singular exactly at 1; `3600 ≤ s < 86400` gives
"N hour(s) ago" with `N = s / 3600`; otherwise the locale-formatted
absolute string. -/
theorem formatTimeAgo_buckets (loc : ℕ → String) (nowMs dateMs : ℕ) :
    ((nowMs - dateMs) / 1000 < 5 → formatTimeAgo loc nowMs dateMs = "Just now") ∧
    (5 ≤ (nowMs - dateMs) / 1000 → (nowMs - dateMs) / 1000 < 60 →
      formatTimeAgo loc nowMs dateMs =
        toString ((nowMs - dateMs) / 1000) ++ " seconds ago") ∧
    (60 ≤ (nowMs - dateMs) / 1000 → (nowMs - dateMs) / 1000 < 3600 →
      formatTimeAgo loc nowMs dateMs =
        toString ((nowMs - dateMs) / 1000 / 60) ++ " " ++
          (if (nowMs - dateMs) / 1000 / 60 = 1 then "minute" else "minutes") ++ " ago") ∧
    (3600 ≤ (nowMs - dateMs) / 1000 → (nowMs - dateMs) / 1000 < 86400 →
      formatTimeAgo loc nowMs dateMs =
        toString ((nowMs - dateMs) / 1000 / 3600) ++ " " ++
          (if (nowMs - dateMs) / 1000 / 3600 = 1 then "hour" else "hours") ++ " ago") ∧
    (86400 ≤ (nowMs - dateMs) / 1000 → formatTimeAgo loc nowMs dateMs = loc dateMs) := by
  refine ⟨?_, ?_, ?_, ?_, ?_⟩
  · intro h
    simp only [formatTimeAgo]
    rw [if_pos h]
  · intro h1 h2
    simp only [formatTimeAgo]
    rw [if_neg (by omega), if_pos h2]
  · intro h1 h2
    simp only [formatTimeAgo]
    rw [if_neg (by omega), if_neg (by omega), if_pos h2]
  · intro h1 h2
    simp only [formatTimeAgo]
    rw [if_neg (by omega), if_neg (by omega), if_neg (by omega), if_pos h2]
  · intro h
    simp only [formatTimeAgo]
    rw [if_neg (by omega), if_neg (by omega), if_neg (by omega), if_neg (by omega)]

/-- Witness for C5 at the claim's boundary points
s = 4, 5, 59, 60, 3599, 3600. -/
theorem formatTimeAgo_buckets_witness :
    formatTimeAgo (fun _ => "") 4000 0 = "Just now" ∧
    formatTimeAgo (fun _ => "") 5000 0 = "5 seconds ago" ∧
    formatTimeAgo (fun _ => "") 59000 0 = "59 seconds ago" ∧
    formatTimeAgo (fun _ => "") 60000 0 = "1 minute ago" ∧
    formatTimeAgo (fun _ => "") 3599000 0 = "59 minutes ago" ∧
    formatTimeAgo (fun _ => "") 3600000 0 = "1 hour ago" := by
  refine ⟨?_, ?_, ?_, ?_, ?_, ?_⟩
  · rw [(formatTimeAgo_buckets (fun _ => "") 4000 0).1 (by decide)]
  · rw [(formatTimeAgo_buckets (fun _ => "") 5000 0).2.1 (by decide) (by decide)]
    decide
  · rw [(formatTimeAgo_buckets (fun _ => "") 59000 0).2.1 (by decide) (by decide)]
    decide
  · rw [(formatTimeAgo_buckets (fun _ => "") 60000 0).2.2.1 (by decide) (by decide)]
    decide
  · rw [(formatTimeAgo_buckets (fun _ => "") 3599000 0).2.2.1 (by decide) (by decide)]
    decide
  · rw [(formatTimeAgo_buckets (fun _ => "") 3600000 0).2.2.2.1 (by decide) (by decide)]
    decide

/-- C6: `isRecent` is true exactly when the elapsed time since the
timestamp is strictly under 5 seconds; at exactly 5.0 seconds elapsed and
beyond it is false. -/
theorem isRecent_iff_under_five_seconds (nowMs dateMs : ℕ) :
    (isRecent nowMs dateMs = true ↔ nowMs - dateMs < 5 * 1000) ∧
    (5 * 1000 ≤ nowMs - dateMs → isRecent nowMs dateMs = false) := by
  constructor
  · simp [isRecent]
  · intro h
    simp only [isRecent, decide_eq_false_iff_not]
    omega

/-- Witness for C6 at exactly 5.0 seconds elapsed. -/
theorem isRecent_iff_under_five_seconds_witness :
    5 * 1000 ≤ 5000 - 0 ∧ isRecent 5000 0 = false :=
  ⟨by decide, (isRecent_iff_under_five_seconds 5000 0).2 (by decide)⟩

/-- For every `k < 100`, the zero-padded fractional part has exactly two
digits. -/
theorem padTwo_length_two : ∀ k : Fin 100, (padTwo k.val).length = 2 := by
  decide

/-- C7: `percentString` formats to exactly two decimal places with a
trailing "%"; in particular `percentString (99.995) = "100.00%"` (standard
rounding at two decimals) and `percentString 0 = "0.00%"`. -/
theorem percentString_two_decimals :
    percentString (99995 / 1000) = "100.00%" ∧
    percentString 0 = "0.00%" ∧
    ∀ x : ℚ, 0 ≤ x → ∃ whole frac : ℕ, frac < 100 ∧ (padTwo frac).length = 2 ∧
      percentString x = toString whole ++ "." ++ padTwo frac ++ "%" := by
  refine ⟨?_, ?_, ?_⟩
  · have h : Int.floor (100 * (99995 / 1000 : ℚ) + 1 / 2) = 10000 := by
      norm_num [Int.floor_eq_iff]
    simp only [percentString, toFixed2, h]
    decide
  · have h : Int.floor (100 * (0 : ℚ) + 1 / 2) = 0 := by
      norm_num [Int.floor_eq_iff]
    simp only [percentString, toFixed2, h]
    decide
  · intro x hx
    have hlt : (Int.floor (100 * x + 1 / 2)).toNat % 100 < 100 :=
      Nat.mod_lt _ (by norm_num)
    exact ⟨(Int.floor (100 * x + 1 / 2)).toNat / 100,
           (Int.floor (100 * x + 1 / 2)).toNat % 100,
           hlt, padTwo_length_two ⟨_, hlt⟩, rfl⟩

/-- Witness for C7's general shape at the concrete percentage 99.95. -/
theorem percentString_two_decimals_witness :
    (0 : ℚ) ≤ 9995 / 100 ∧
    (∃ whole frac : ℕ, frac < 100 ∧ (padTwo frac).length = 2 ∧
      percentString (9995 / 100) = toString whole ++ "." ++ padTwo frac ++ "%") :=
  ⟨by norm_num, percentString_two_decimals.2.2 (9995 / 100) (by norm_num)⟩

/-- C8: each derived-value formatter, with the clock reading and locale
formatter made explicit inputs, is a pure function: equal inputs give
identical outputs on repeated invocation. -/
theorem formatters_no_hidden_state
    (loc loc' : ℕ → String) (n d n' d' : ℕ) (x x' y y' : ℚ)
    (hloc : loc = loc') (hn : n = n') (hd : d = d') (hx : x = x') (hy : y = y') :
    formatTimeAgo loc n d = formatTimeAgo loc' n' d' ∧
    formatDate loc n d = formatDate loc' n' d' ∧
    percentString x = percentString x' ∧
    formatLatency y = formatLatency y' ∧
    isRecent n d = isRecent n' d' := by
  subst hloc
  subst hn
  subst hd
  subst hx
  subst hy
  exact ⟨rfl, rfl, rfl, rfl, rfl⟩

/-- Witness for C8 at concrete repeated inputs. -/
theorem formatters_no_hidden_state_witness :
    formatTimeAgo (fun _ => "abs") 10000 0 = formatTimeAgo (fun _ => "abs") 10000 0 ∧
    formatDate (fun _ => "abs") 10000 0 = formatDate (fun _ => "abs") 10000 0 ∧
    percentString (9995 / 100) = percentString (9995 / 100) ∧
    formatLatency 1234 = formatLatency 1234 ∧
    isRecent 10000 0 = isRecent 10000 0 :=
  formatters_no_hidden_state (fun _ => "abs") (fun _ => "abs") 10000 0 10000 0
    (9995 / 100) (9995 / 100) 1234 1234 rfl rfl rfl rfl rfl
